import Mathlib

/-!
Verification development for the SimpExtrac job-posting aggregation system.

This file gives a shallow embedding, in Lean, of the parts of the Python
source that the verified properties are about, and proves (or refutes)
each property against that embedding.

Embedded components and their source files:
  * scraper/data_manager.py   : JobDataManager (file merge, Django sync, load)
  * jobs/models.py            : Company and Job rows
  * scraper/models.py         : ScraperStats and its success_rate property
  * celery_tasks/models.py    : TaskProgress.update_progress, ScrapeJobRun
  * celery_tasks/tasks.py     : scrape_jobs_task, cleanup_old_job_runs
  * scraper/tasks.py          : run_scraper_url_task
  * scraper/company_info_extractor.py : extract_company_email
  * scraper/cloudflare_bypass.py      : is_cloudflare_challenge

Python dictionaries are embedded as association lists of string keys to a
Value type (strings or lists of strings, the only value shapes these
dictionaries hold).  Python exceptions are embedded as Except: a raised
exception is an error value, a try/except block is a match on it.
Database tables are embedded as lists of rows, and the Django
get_or_create / update_or_create calls as explicit lookups on those lists.
Network and browser effects (scraping, HTTP fetches, datetime parsing)
enter as explicit function parameters, so every definition is executable.
-/

namespace SimpExtrac

/-- Python str.lower over the character list (the byte-position based
library String functions do not reduce in the kernel, so the embedding
works on character lists throughout). -/
def strToLower (s : String) : String := String.mk (s.data.map Char.toLower)

/-- Contiguous-sublist test on character lists. -/
def charsInfix (sub : List Char) : List Char → Bool
  | [] => sub.isEmpty
  | c :: rest => sub.isPrefixOf (c :: rest) || charsInfix sub rest

/-- Python substring membership, sub in s. -/
def strContains (s sub : String) : Bool := charsInfix sub.data s.data

/-- Python str.endswith. -/
def strEndsWith (s suffix : String) : Bool := suffix.data.isSuffixOf s.data

/-- Split a character list at the first occurrence of a separator. -/
def splitOnce (sep : List Char) : List Char → Option (List Char × List Char)
  | [] => none
  | c :: rest =>
      if sep.isPrefixOf (c :: rest) then some ([], (c :: rest).drop sep.length)
      else
        match splitOnce sep rest with
        | some p => some (c :: p.1, p.2)
        | none => none

/-- Python str.strip of surrounding whitespace. -/
def strTrim (s : String) : String :=
  String.mk (((s.data.dropWhile Char.isWhitespace).reverse.dropWhile Char.isWhitespace).reverse)

/-- Value stored in a scraped-posting dictionary: plain strings, or a list
of strings (the `sources` accumulator written by the merge step). -/
inductive Value where
  | str (s : String)
  | strList (l : List String)
deriving Repr, DecidableEq

/-- Python `str()` of a stored value; list values render like a Python list
literal.  Used only for the length comparison in the merge policy. -/
def Value.pyStr : Value → String
  | .str s => s
  | .strList l => "[" ++ String.intercalate ", " (l.map (fun s => "\x27" ++ s ++ "\x27")) ++ "]"

/-- Python truthiness of a dictionary value. -/
def Value.truthyV : Value → Bool
  | .str s => !s.isEmpty
  | .strList l => !l.isEmpty

/-- A scraped posting: an open key/value dictionary, as passed around by the
scrapers, the enrichment service and the data manager. -/
abbrev Posting := List (String × Value)

/-- Python `dict.get(k)`: the value at key `k`, if present. -/
def Posting.get (p : Posting) (k : String) : Option Value :=
  (List.find? (fun kv => kv.1 == k) p).map (fun kv => kv.2)

/-- Python `dict[k] = v`: overwrite the value at `k`, or add the key. -/
def Posting.set (p : Posting) (k : String) (v : Value) : Posting :=
  if p.any (fun kv => kv.1 == k) then
    p.map (fun kv => if kv.1 == k then (k, v) else kv)
  else p ++ [(k, v)]

/-- Python truthiness of `dict.get(k)` (absent and empty both falsy). -/
def Posting.truthy (v : Option Value) : Bool :=
  match v with
  | none => false
  | some v => v.truthyV

/-- Python `str(dict.get(k, d))` with a string default. -/
def Posting.getD (p : Posting) (k d : String) : String :=
  match p.get k with
  | some v => v.pyStr
  | none => d

/-- Company row of jobs/models.py: name is unique; website and email are
optional (they may be NULL in the database). -/
structure CompanyRow where
  name : String
  company_website : Option String
  company_email : Option String
deriving Repr, DecidableEq

/-- Job row of jobs/models.py.  The company foreign key is represented by
the company name, which is a unique key of the Company table.  Timestamps
are abstract instants represented as naturals. -/
structure JobRow where
  title : String
  company : String
  location : String
  url : String
  description : String
  salary : String
  source : String
  scraped_at : Nat
deriving Repr, DecidableEq

/-- The relational store seen by JobDataManager.save_to_django_db. -/
structure DB where
  companies : List CompanyRow
  jobs : List JobRow
deriving Repr, DecidableEq

/-- Truthiness of an optional text column (NULL and empty string falsy),
as in `not company.company_website`. -/
def optTruthy : Option String → Bool
  | none => false
  | some s => !s.isEmpty

/-- Company.objects.get_or_create(name=..., defaults={website, email}):
returns the matched or created row, a created flag, and the new table
state (data_manager.py lines 85-91). -/
def getOrCreateCompany (db : DB) (name : String) (defWebsite defEmail : Option String) :
    CompanyRow × Bool × DB :=
  match List.find? (fun c => c.name == name) db.companies with
  | some c => (c, false, db)
  | none =>
      let c : CompanyRow := ⟨name, defWebsite, defEmail⟩
      (c, true, { db with companies := db.companies ++ [c] })

/-- Backfill step of data_manager.py lines 97-106: on an existing company,
fill website/email from the posting only when the posting value is truthy
and the stored value is falsy. -/
def backfillCompany (c : CompanyRow) (jdWebsite jdEmail : Option Value) : CompanyRow :=
  let website :=
    if Posting.truthy jdWebsite && !optTruthy c.company_website then
      match jdWebsite with
      | some (.str s) => some s
      | _ => c.company_website
    else c.company_website
  let email :=
    if Posting.truthy jdEmail && !optTruthy c.company_email then
      match jdEmail with
      | some (.str s) => some s
      | _ => c.company_email
    else c.company_email
  { c with company_website := website, company_email := email }

/-- Company half of one save_to_django_db iteration (lines 83-106): get or
create the company by name, then backfill empty fields on a repeat match. -/
def saveCompanyStep (db : DB) (name : String) (jdWebsite jdEmail : Option Value) : DB :=
  let optOf : Option Value → Option String := fun v =>
    match v with
    | some (.str s) => some s
    | _ => none
  let r := getOrCreateCompany db name (optOf jdWebsite) (optOf jdEmail)
  if r.2.1 then r.2.2
  else
    { r.2.2 with
      companies := r.2.2.companies.map (fun c =>
        if c.name == name then backfillCompany c jdWebsite jdEmail else c) }

/-- Parse of the scraped_at field (data_manager.py lines 108-119): the save
time `now` when the field is absent, falsy or unparseable, the parsed
instant otherwise.  `parseDT` stands for django.utils.dateparse.parse_datetime
composed with make_aware. -/
def parseScrapedAt (parseDT : String → Option Nat) (now : Nat) (p : Posting) : Nat :=
  match p.get "scraped_at" with
  | some (.str s) =>
      if s.isEmpty then now
      else
        match parseDT s with
        | some t => t
        | none => now
  | _ => now

/-- Job.objects.update_or_create keyed on (title, company, url) with the
remaining columns as defaults (data_manager.py lines 121-133).  Zero
matches create a row, one match updates it in place; more than one match
raises MultipleObjectsReturned, which the per-record handler turns into a
skip, leaving the table unchanged. -/
def updateOrCreateJob (db : DB) (title companyName url location description salary source : String)
    (scraped_at : Nat) : DB :=
  let key := fun (j : JobRow) => j.title == title && j.company == companyName && j.url == url
  match db.jobs.filter key with
  | [] =>
      { db with jobs := db.jobs ++
          [⟨title, companyName, location, url, description, salary, source, scraped_at⟩] }
  | [_] =>
      { db with jobs := db.jobs.map (fun j =>
          if key j then
            { j with location := location, description := description, salary := salary,
                     source := source, scraped_at := scraped_at }
          else j) }
  | _ => db

/-- One iteration of the save_to_django_db loop (lines 77-142): skip
incomplete records, then run the company step and the job upsert. -/
def saveJobRecord (parseDT : String → Option Nat) (now : Nat) (db : DB) (jd : Posting) : DB :=
  if Posting.truthy (jd.get "title") && Posting.truthy (jd.get "company") then
    let companyName := jd.getD "company" ""
    let db1 := saveCompanyStep db companyName (jd.get "company_website") (jd.get "company_email")
    let sAt := parseScrapedAt parseDT now jd
    updateOrCreateJob db1 (jd.getD "title" "") companyName (jd.getD "url" "")
      (jd.getD "location" "") (jd.getD "description" "") (jd.getD "salary" "")
      (jd.getD "source" "Unknown") sAt
  else db

/-- JobDataManager.save_to_django_db (data_manager.py lines 71-144). -/
def save_to_django_db (parseDT : String → Option Nat) (now : Nat) (db : DB)
    (jobs_list : List Posting) : DB :=
  jobs_list.foldl (saveJobRecord parseDT now) db

/-- JobDataManager._find_duplicate (lines 201-210): index of the first
stored posting with the same non-empty stripped URL. -/
def find_duplicate (newJob : Posting) (existing : List Posting) : Option Nat :=
  let newUrl := strTrim (newJob.getD "url" "")
  existing.findIdx? (fun e =>
    let existingUrl := strTrim (e.getD "url" "")
    !newUrl.isEmpty && !existingUrl.isEmpty && newUrl == existingUrl)

/-- JobDataManager._merge_job_data (lines 217-239): accumulate the sources
list, keep the longer value per field, and stamp last_updated with the
merge time. -/
def merge_job_data (nowIso : String) (existingJob newJob : Posting) : Posting :=
  let existingSources : List String :=
    match existingJob.get "sources" with
    | some (.strList l) => l
    | _ => [existingJob.getD "source" ""]
  let newSource := newJob.getD "source" ""
  let sources :=
    if !newSource.isEmpty && !existingSources.contains newSource then
      existingSources ++ [newSource]
    else existingSources
  let base := existingJob.set "sources" (.strList sources)
  let merged := newJob.foldl (fun acc kv =>
    if kv.1 == "source" then acc
    else
      let existingValue := existingJob.get kv.1
      if !Posting.truthy existingValue ||
          (kv.2.truthyV &&
            kv.2.pyStr.length > ((existingValue.map Value.pyStr).getD "").length) then
        acc.set kv.1 kv.2
      else acc) base
  merged.set "last_updated" (.str nowIso)

/-- Stamp of save_jobs line 48: the scraped_at field of every posting in
the batch is overwritten with the save time before any further handling. -/
def stampJob (nowIso : String) (j : Posting) : Posting :=
  j.set "scraped_at" (.str nowIso)

/-- One iteration of the save_jobs loop (lines 47-59): stamp the posting,
then merge it over a URL duplicate or append it. -/
def saveJobsStep (nowIso : String) (existing : List Posting) (job : Posting) : List Posting :=
  let job := stampJob nowIso job
  match find_duplicate job existing with
  | some i =>
      match existing[i]? with
      | some e => existing.set i (merge_job_data nowIso e job)
      | none => existing
  | none => existing ++ [job]

/-- JobDataManager.save_jobs (lines 40-69): returns the updated file store
and the updated relational store.  The postings handed to the database
sync are the stamped ones, because line 48 mutates the batch in place. -/
def save_jobs (parseDT : String → Option Nat) (now : Nat) (nowIso : String)
    (existing : List Posting) (db : DB) (jobs_list : List Posting) :
    List Posting × DB :=
  let fileJobs := jobs_list.foldl (saveJobsStep nowIso) existing
  (fileJobs, save_to_django_db parseDT now db (jobs_list.map (stampJob nowIso)))

/-- Fallible body of JobDataManager.load_jobs (lines 146-156): absent file
loads the empty list, a .json or .csv path runs the matching parser, any
other extension raises ValueError.  The parsers stand for json.load and
csv.DictReader and may themselves fail. -/
def loadJobsBody (path : String) (content : Option String)
    (parseJSON parseCSV : String → Except String (List Posting)) :
    Except String (List Posting) :=
  match content with
  | none => .ok []
  | some c =>
      if strEndsWith path ".json" then parseJSON c
      else if strEndsWith path ".csv" then parseCSV c
      else .error "Unsupported file format. Use .json or .csv"

/-- JobDataManager.load_jobs (lines 146-160): the body wrapped in the
except handler that logs and returns the empty list. -/
def load_jobs (path : String) (content : Option String)
    (parseJSON parseCSV : String → Except String (List Posting)) : List Posting :=
  match loadJobsBody path content parseJSON parseCSV with
  | .ok l => l
  | .error _ => []

/-- ScraperStats row as declared in scraper/models.py lines 47-84: request
counters, job counters and timing columns, unique per (source, date).
Dates and the averaged timings are abstract (Nat / Rat). -/
structure ScraperStats where
  source : String
  date : Nat
  requests_made : Nat
  successful_requests : Nat
  failed_requests : Nat
  jobs_found : Nat
  jobs_saved : Nat
  duplicates_skipped : Nat
  average_response_time : ℚ
  total_scraping_time : ℚ
deriving Repr, DecidableEq

/-- Python attribute read of an integer counter on a ScraperStats instance.
Only the columns declared in scraper/models.py resolve; any other name
raises AttributeError.  In particular jobs_requested, written by
run_scraper_url_task, is not among them. -/
def ScraperStats.getNatAttr (s : ScraperStats) (name : String) : Except String Nat :=
  if name == "requests_made" then .ok s.requests_made
  else if name == "successful_requests" then .ok s.successful_requests
  else if name == "failed_requests" then .ok s.failed_requests
  else if name == "jobs_found" then .ok s.jobs_found
  else if name == "jobs_saved" then .ok s.jobs_saved
  else if name == "duplicates_skipped" then .ok s.duplicates_skipped
  else .error ("AttributeError: ScraperStats object has no attribute " ++ name)

/-- Python round(x, 2): round half to even at two decimal places. -/
def pythonRound2 (q : ℚ) : ℚ :=
  let shifted := q * 100
  let f : ℤ := ⌊shifted⌋
  let r := shifted - f
  let rounded : ℤ :=
    if r < 1 / 2 then f
    else if 1 / 2 < r then f + 1
    else if f % 2 = 0 then f else f + 1
  (rounded : ℚ) / 100

/-- ScraperStats.success_rate property (scraper/models.py lines 79-84):
zero when no requests were made, otherwise the percentage of successful
requests, rounded to two decimals. -/
def ScraperStats.success_rate (s : ScraperStats) : ℚ :=
  if s.requests_made = 0 then 0
  else pythonRound2 ((s.successful_requests : ℚ) / (s.requests_made : ℚ) * 100)

/-- Modelled from the spec: the success-rate formula the specification
prescribes for the richer statistics shape, success_rate = jobs_saved /
jobs_requested * 100 with 0 when no jobs were requested.  Stated over the
two counters directly because the ScraperStats model in the source
declares no jobs_requested column. -/
def success_rate_claimed (jobs_saved jobs_requested : Nat) : ℚ :=
  if jobs_requested = 0 then 0
  else (jobs_saved : ℚ) / (jobs_requested : ℚ) * 100

/-- Source auto-detection of run_scraper_url_task (scraper/tasks.py lines
52-60): match the lowered URL against the three source domains, with
indeed as the fallback. -/
def auto_detect_source (filtered_url : String) : String :=
  let u := strToLower filtered_url
  if strContains u "indeed.com" then "indeed"
  else if strContains u "glassdoor.com" then "glassdoor"
  else if strContains u "linkedin.com" then "linkedin"
  else "indeed"

/-- ScraperStats.objects.get_or_create on (source, date) with zeroed
defaults (scraper/tasks.py lines 64-73). -/
def getOrCreateStats (table : List ScraperStats) (source : String) (date : Nat) :
    ScraperStats × List ScraperStats :=
  match List.find? (fun s => s.source == source && s.date == date) table with
  | some s => (s, table)
  | none =>
      let s : ScraperStats := ⟨source, date, 0, 0, 0, 0, 0, 0, 0, 0⟩
      (s, table ++ [s])

/-- Persist an in-memory ScraperStats row back into its table (stats.save()). -/
def saveStats (table : List ScraperStats) (stats : ScraperStats) : List ScraperStats :=
  table.map (fun s => if s.source == stats.source && s.date == stats.date then stats else s)

/-- Result dictionary of run_scraper_url_task (scraper/tasks.py lines
205-213), restricted to its data fields. -/
structure UrlTaskResult where
  jobs_saved : Nat
  companies_created : Nat
  source : String
  filtered_url : String
  total_scraped : Nat
deriving Repr, DecidableEq

/-- Try block of run_scraper_url_task (scraper/tasks.py lines 79-220):
select the scraper (ValueError on an unknown source), scrape, return early
on an empty batch, run the enhancement loop, update the enhancement
counters, sync to the database and build the result.  `scrape` and
`enhance` stand for the browser-backed scraper and the company-enrichment
call; both may raise.  The reads of the undeclared counters
company_enhancements_success / company_enhancements_failed (lines 165-166)
go through getNatAttr and raise AttributeError, so the code after them is
never reached; it is embedded for the declared columns only.  Exceptions
reaching the except handler at line 218 are re-raised, hence propagate. -/
def urlTaskTryBlock (scrape : String → String → Nat → Except String (List Posting))
    (enhance : Posting → Except String Posting)
    (parseDT : String → Option Nat) (now : Nat) (scrapingTime : ℚ)
    (db : DB) (table : List ScraperStats) (stats : ScraperStats)
    (filtered_url : String) (num_jobs : Nat) (src : String) :
    Except String (DB × List ScraperStats × UrlTaskResult) := do
  if !(src == "indeed" || src == "glassdoor" || src == "linkedin") then
    .error ("ValueError: Unsupported source: " ++ src)
  else do
    let scraped ← scrape src filtered_url num_jobs
    let stats := { stats with jobs_found := stats.jobs_found + scraped.length }
    if scraped.isEmpty then
      .ok (db, saveStats table stats, ⟨0, 0, src, filtered_url, 0⟩)
    else do
      let enhStep := fun (acc : List Posting × Nat × Nat) (jd : Posting) =>
        match enhance jd with
        | .ok ej =>
            if Posting.truthy (ej.get "company_website") ||
                Posting.truthy (ej.get "company_email") then
              (acc.1 ++ [ej], acc.2.1 + 1, acc.2.2)
            else
              (acc.1 ++ [ej], acc.2.1, acc.2.2 + 1)
        | .error _ => (acc.1 ++ [jd], acc.2.1, acc.2.2 + 1)
      let enh := scraped.foldl enhStep ([], 0, 0)
      let _ ← stats.getNatAttr "company_enhancements_success"
      let _ ← stats.getNatAttr "company_enhancements_failed"
      let enhancedJobs := enh.1
      let db2 := save_to_django_db parseDT now db enhancedJobs
      let jobsSaved := (enhancedJobs.filter (fun j =>
        Posting.truthy (j.get "title") && Posting.truthy (j.get "company"))).length
      let companiesCreated := (enhancedJobs.filterMap (fun j =>
        if Posting.truthy (j.get "company") then some (j.getD "company" "") else none)).dedup.length
      let stats := { stats with jobs_saved := stats.jobs_saved + jobsSaved,
                                total_scraping_time := stats.total_scraping_time + scrapingTime }
      .ok (db2, saveStats table stats, ⟨jobsSaved, companiesCreated, src, filtered_url, scraped.length⟩)

/-- run_scraper_url_task (scraper/tasks.py lines 32-220): auto-detect the
source when the argument is falsy, fetch or create the per-day stats row,
then execute line 75, stats.jobs_requested += num_jobs, whose read half
resolves the attribute jobs_requested on the row; only then enter the try
block.  Returns the updated database, the updated stats table and the
result dictionary, or the first raised exception. -/
def run_scraper_url_task (scrape : String → String → Nat → Except String (List Posting))
    (enhance : Posting → Except String Posting)
    (parseDT : String → Option Nat) (now today : Nat) (scrapingTime : ℚ)
    (db : DB) (table : List ScraperStats)
    (filtered_url : String) (num_jobs : Nat) (source : Option String) :
    Except String (DB × List ScraperStats × UrlTaskResult) := do
  let src :=
    match source with
    | some s => if s.isEmpty then auto_detect_source filtered_url else s
    | none => auto_detect_source filtered_url
  let gc := getOrCreateStats table src today
  let _ ← gc.1.getNatAttr "jobs_requested"
  urlTaskTryBlock scrape enhance parseDT now scrapingTime db gc.2 gc.1 filtered_url num_jobs src

/-- TaskProgress row (celery_tasks/models.py lines 143-169). -/
structure TaskProgressRec where
  task_id : String
  current_step : String
  progress_percentage : Int
  total_sources : Nat
  completed_sources : Nat
  current_source : String
  jobs_scraped : Nat
  companies_found : Nat
deriving Repr, DecidableEq

/-- Keyword arguments accepted by update_progress through its setattr
loop; these four names are the ones its callers pass, and all four are
declared fields, so hasattr holds and each provided value is assigned. -/
structure ProgressKwargs where
  current_source : Option String := none
  completed_sources : Option Nat := none
  jobs_scraped : Option Nat := none
  companies_found : Option Nat := none
deriving Repr, DecidableEq

/-- TaskProgress.update_progress (celery_tasks/models.py lines 171-182):
a truthy step replaces current_step; a percentage that is not None is
stored clamped to [0, 100] via min(100, max(0, percentage)); provided
keyword fields are assigned as given. -/
def TaskProgressRec.update_progress (p : TaskProgressRec) (step : Option String)
    (percentage : Option Int) (kw : ProgressKwargs) : TaskProgressRec :=
  let p :=
    match step with
    | some s => if !s.isEmpty then { p with current_step := s } else p
    | none => p
  let p :=
    match percentage with
    | some x => { p with progress_percentage := min 100 (max 0 x) }
    | none => p
  let p := match kw.current_source with | some v => { p with current_source := v } | none => p
  let p := match kw.completed_sources with | some v => { p with completed_sources := v } | none => p
  let p := match kw.jobs_scraped with | some v => { p with jobs_scraped := v } | none => p
  match kw.companies_found with | some v => { p with companies_found := v } | none => p

/-- Per-source entry of the result_summary source_results map
(celery_tasks/tasks.py lines 104-110 and 173-177). -/
structure SourceResult where
  jobs_found : Nat
  companies_found : Nat
  success : Bool
deriving Repr, DecidableEq

/-- result_summary dictionary built at celery_tasks/tasks.py lines 220-227. -/
structure ResultSummary where
  total_jobs_found : Nat
  total_companies_found : Nat
  sources_processed : Nat
  sources_with_errors : Nat
  source_results : List (String × SourceResult)
deriving Repr, DecidableEq

/-- ScrapeJobRun row (celery_tasks/models.py lines 67-112), restricted to
the columns the task writes.  result_summary defaults to the empty
dictionary, embedded as none; completed records whether completed_at was
stamped. -/
structure JobRunRec where
  scheduled_job : Option Nat
  celery_task_id : String
  status : String
  jobs_found : Nat
  companies_found : Nat
  errors : List String
  result_summary : Option ResultSummary
  completed : Bool
deriving Repr, DecidableEq

/-- search_criteria dictionary of scrape_jobs_task with the .get defaults
already applied: scrape_type defaults to legacy, max_jobs to 25, source to
indeed, sources to [indeed], the text fields to the empty string. -/
structure SearchCriteria where
  scrape_type : String
  filtered_url : String
  max_jobs : Nat
  source : String
  job_title : String
  location : String
  sources : List String
deriving Repr, DecidableEq

/-- Observable outcome of one scrape_jobs_task execution: the TaskProgress
row and ScrapeJobRun row it leaves behind (none when it failed before
creating them), the resulting stores, and the return value or the
exception the task re-raised. -/
structure CeleryTaskOutcome where
  progress : Option TaskProgressRec
  job_run : Option JobRunRec
  db : DB
  statsTable : List ScraperStats
  result : Except String Unit
deriving Repr

/-- Names bound at module level in scraper/tasks.py: its imports (lines
10-27) and its single function definition, run_scraper_url_task (line 32).
The module defines no name run_scraper_task. -/
def scraperTasksModuleAttrs : List String :=
  ["logging", "django", "settings", "timezone", "Job", "Company",
   "IndeedScraper", "GlassdoorScraper", "LinkedInScraper",
   "CompanyInfoExtractor", "ScraperStats", "JobDataManager", "logger",
   "run_scraper_url_task"]

/-- Intermediate state of one scrape_jobs_task branch before the shared
finalization: the live progress row, the stores, and the accumulated
errors, totals and per-source results. -/
structure BranchState where
  progress : TaskProgressRec
  db : DB
  statsTable : List ScraperStats
  errors : List String
  totalJobs : Nat
  totalCompanies : Nat
  sourceResults : List (String × SourceResult)
deriving Repr, DecidableEq

/-- Finalization of scrape_jobs_task (celery_tasks/tasks.py lines 209-276):
update progress to 90 percent, set status / counts / errors on the run
row, then build result_summary.  The summary literal at line 223 evaluates
len(sources); the url_based branch never binds a local named sources, so
evaluating the literal there raises NameError before result_summary is
assigned, and the outer except handler (lines 257-276) marks the run
failed, stamps completion and re-raises.  `sourcesVar` is the value of the
local sources: none in the url_based branch, the bound list in the legacy
branch. -/
def finalizeTask (st : BranchState) (jobRun : JobRunRec)
    (sourcesVar : Option (List String)) : CeleryTaskOutcome :=
  let progress := st.progress.update_progress (some "Finalizing results...") (some 90) {}
  let jobRun :=
    { jobRun with
      status := if st.errors.isEmpty || st.totalJobs > 0 then "success" else "failed",
      jobs_found := st.totalJobs, companies_found := st.totalCompanies,
      errors := st.errors }
  match sourcesVar with
  | none =>
      let msg := "NameError: name sources is not defined"
      let jobRun := { jobRun with status := "failed", errors := [msg], completed := true }
      let progress := progress.update_progress (some ("Failed: " ++ msg)) (some 100) {}
      { progress := some progress, job_run := some jobRun, db := st.db,
        statsTable := st.statsTable, result := .error msg }
  | some sources =>
      let summary : ResultSummary :=
        { total_jobs_found := st.totalJobs, total_companies_found := st.totalCompanies,
          sources_processed := sources.length,
          sources_with_errors := (st.sourceResults.filter (fun sr => !sr.2.success)).length,
          source_results := st.sourceResults }
      let jobRun := { jobRun with result_summary := some summary, completed := true }
      let progress := progress.update_progress
        (some ("Completed! Found " ++ toString st.totalJobs ++ " jobs from " ++
          toString st.totalCompanies ++ " companies")) (some 100) {}
      { progress := some progress, job_run := some jobRun, db := st.db,
        statsTable := st.statsTable, result := .ok () }

/-- Body of scrape_jobs_task after its imports succeed (celery_tasks/
tasks.py lines 33-276): create the progress and run rows, branch on
scrape_type, then finalize.  In the url_based branch the inner try (lines
68-119) calls run_scraper_url_task and converts any exception into the
errors list.  (The call at lines 80-84 passes the keyword max_jobs to a
function whose parameter is named num_jobs, so at call time it raises
TypeError even before the AttributeError inside the callee; either
exception lands in the same except arm, so the call is embedded as
invoking the callee.)  The legacy branch iterates the requested sources,
calling the legacy scraper `runLegacy` per source with max_jobs evenly
divided, accumulating per-source errors without aborting.  `runLegacy`
stands for the run_scraper_task the module tries to import; it is an
opaque-by-parameter stand-in because no such function exists in the
source tree. -/
def scrapeJobsTaskBody (scrape : String → String → Nat → Except String (List Posting))
    (enhance : Posting → Except String Posting)
    (runLegacy : String → String → String → Nat → DB → Except String DB)
    (parseDT : String → Option Nat) (now today : Nat) (scrapingTime : ℚ)
    (db : DB) (table : List ScraperStats)
    (task_id : String) (criteria : SearchCriteria) (scheduled_job_id : Option Nat) :
    CeleryTaskOutcome :=
  let progress : TaskProgressRec :=
    { task_id := task_id, current_step := "Initializing scrape job...",
      progress_percentage := 0, total_sources := criteria.sources.length,
      completed_sources := 0, current_source := "", jobs_scraped := 0,
      companies_found := 0 }
  let jobRun : JobRunRec :=
    { scheduled_job := scheduled_job_id, celery_task_id := task_id, status := "running",
      jobs_found := 0, companies_found := 0, errors := [], result_summary := none,
      completed := false }
  if criteria.scrape_type == "url_based" then
    let progress := progress.update_progress
      (some ("Starting URL-based scraping from " ++ criteria.source)) (some 10) {}
    let progress := progress.update_progress
      (some ("Processing " ++ criteria.filtered_url ++ "..."))
      (some 30) { current_source := some criteria.source }
    let st : BranchState :=
      match run_scraper_url_task scrape enhance parseDT now today scrapingTime db table
          criteria.filtered_url criteria.max_jobs (some criteria.source) with
      | .ok r =>
          let jobsFound := r.1.jobs.length - db.jobs.length
          let companiesFound := r.1.companies.length - db.companies.length
          let progress := progress.update_progress (some "URL-based scraping completed")
            (some 90) { jobs_scraped := some jobsFound, companies_found := some companiesFound }
          { progress := progress, db := r.1, statsTable := r.2.1, errors := [],
            totalJobs := jobsFound, totalCompanies := companiesFound,
            sourceResults := [(criteria.source, ⟨jobsFound, companiesFound, true⟩)] }
      | .error e =>
          { progress := progress, db := db, statsTable := table,
            errors := ["Error in URL-based scraping: " ++ e],
            totalJobs := 0, totalCompanies := 0, sourceResults := [] }
    finalizeTask st jobRun none
  else
    let progress := progress.update_progress
      (some ("Starting legacy scraping for " ++ criteria.job_title ++ " in " ++
        criteria.location)) (some 5) {}
    let n := criteria.sources.length
    let init : BranchState :=
      { progress := progress, db := db, statsTable := table, errors := [],
        totalJobs := 0, totalCompanies := 0, sourceResults := [] }
    let st := (criteria.sources.enum.foldl (fun (acc : BranchState) iSource =>
      let i := iSource.1
      let source := iSource.2
      let p := acc.progress.update_progress (some ("Scraping " ++ source ++ "..."))
        (some (10 + (i * 70 / n : Nat) : Int))
        { current_source := some source, completed_sources := some i }
      match runLegacy criteria.job_title criteria.location source (criteria.max_jobs / n)
          acc.db with
      | .ok db2 =>
          let jobsFound := db2.jobs.length - acc.db.jobs.length
          let companiesFound := db2.companies.length - acc.db.companies.length
          let p := p.update_progress none none
            { jobs_scraped := some (acc.totalJobs + jobsFound),
              companies_found := some (acc.totalCompanies + companiesFound),
              completed_sources := some (i + 1) }
          { acc with
            progress := p, db := db2,
            totalJobs := acc.totalJobs + jobsFound,
            totalCompanies := acc.totalCompanies + companiesFound,
            sourceResults := acc.sourceResults ++ [(source, ⟨jobsFound, companiesFound, true⟩)] }
      | .error e =>
          { acc with
            progress := p,
            errors := acc.errors ++ ["Error scraping " ++ source ++ ": " ++ e],
            sourceResults := acc.sourceResults ++ [(source, ⟨0, 0, false⟩)] }) init)
    finalizeTask st jobRun (some criteria.sources)

/-- scrape_jobs_task (celery_tasks/tasks.py lines 18-276).  Its body first
executes the function-level imports (lines 28-31); line 31 is
from scraper.tasks import run_scraper_task, and scraper/tasks.py binds no
module attribute of that name, so the import raises ImportError before the
TaskProgress and ScrapeJobRun rows are created, and the task fails leaving
no rows behind. -/
def scrape_jobs_task (scrape : String → String → Nat → Except String (List Posting))
    (enhance : Posting → Except String Posting)
    (runLegacy : String → String → String → Nat → DB → Except String DB)
    (parseDT : String → Option Nat) (now today : Nat) (scrapingTime : ℚ)
    (db : DB) (table : List ScraperStats)
    (task_id : String) (criteria : SearchCriteria) (scheduled_job_id : Option Nat) :
    CeleryTaskOutcome :=
  if scraperTasksModuleAttrs.contains "run_scraper_task" then
    scrapeJobsTaskBody scrape enhance runLegacy parseDT now today scrapingTime db table
      task_id criteria scheduled_job_id
  else
    { progress := none, job_run := none, db := db, statsTable := table,
      result := .error "ImportError: cannot import name run_scraper_task from scraper.tasks" }

/-- ScrapeJobRun row restricted to the columns cleanup_old_job_runs reads:
an identifier, the optional owning scheduled job, and the start instant. -/
structure RunRow where
  id : Nat
  scheduled_job : Option Nat
  started_at : Nat
deriving Repr, DecidableEq

/-- Insertion into a list kept in descending started_at order. -/
def insertDesc (x : RunRow) : List RunRow → List RunRow
  | [] => [x]
  | y :: ys => if y.started_at ≤ x.started_at then x :: y :: ys else y :: insertDesc x ys

/-- QuerySet.order_by with descending started_at. -/
def sortByStartedDesc (l : List RunRow) : List RunRow :=
  l.foldr insertDesc []

/-- Django queryset over run rows; sliced records whether a slice such as
[100:] has been taken. -/
structure RunQuerySet where
  rows : List RunRow
  sliced : Bool
deriving Repr, DecidableEq

/-- QuerySet.delete() per the Django contract the code relies on: delete
on a sliced queryset raises TypeError (Django refuses limit / offset with
delete); otherwise the rows leave the table and their count is returned. -/
def RunQuerySet.delete (qs : RunQuerySet) (dbRuns : List RunRow) :
    Except String (List RunRow × Nat) :=
  if qs.sliced then .error "TypeError: Cannot use limit or offset with delete()."
  else .ok (dbRuns.filter (fun r => !(qs.rows.any (fun d => d.id == r.id))), qs.rows.length)

/-- Per-scheduled-job step of cleanup_old_job_runs (celery_tasks/tasks.py
lines 304-313): build the sliced queryset of runs past the most recent
100, and call delete on it when it is non-empty. -/
def cleanupJobStep (acc : List RunRow × Nat) (jobId : Nat) : Except String (List RunRow × Nat) :=
  let runsToDelete : RunQuerySet :=
    { rows := (sortByStartedDesc (acc.1.filter
        (fun r => r.scheduled_job == some jobId))).drop 100,
      sliced := true }
  if !runsToDelete.rows.isEmpty then
    match runsToDelete.delete acc.1 with
    | .ok p => .ok (p.1, acc.2 + p.2)
    | .error e => .error e
  else .ok acc

/-- The for-loop over scheduled jobs in cleanup_old_job_runs (lines
304-313): run the per-job step in order, propagating the first raised
exception. -/
def cleanupLoop : List Nat → List RunRow × Nat → Except String (List RunRow × Nat)
  | [], acc => .ok acc
  | j :: t, acc =>
      match cleanupJobStep acc j with
      | .ok acc2 => cleanupLoop t acc2
      | .error e => .error e

/-- cleanup_old_job_runs (celery_tasks/tasks.py lines 294-327): prune each
scheduled job to its most recent 100 runs, then unattached manual runs to
the most recent 50, returning the surviving table and the deleted count,
or the first exception raised. -/
def cleanup_old_job_runs (scheduledJobIds : List Nat) (dbRuns : List RunRow) :
    Except String (List RunRow × Nat) :=
  match cleanupLoop scheduledJobIds (dbRuns, 0) with
  | .error e => .error e
  | .ok r =>
      let manualToDelete : RunQuerySet :=
        { rows := (sortByStartedDesc (r.1.filter (fun x => x.scheduled_job == none))).drop 50,
          sliced := true }
      if !manualToDelete.rows.isEmpty then
        match manualToDelete.delete r.1 with
        | .ok p => .ok (p.1, r.2 + p.2)
        | .error e => .error e
      else .ok r

/-- urllib.parse.urljoin for the use made of it in extract_company_email:
joining an absolute path such as /contact onto an http(s) base keeps the
scheme and network location of the base and replaces its path. -/
def urljoin (base path : String) : String :=
  match splitOnce "://".data base.data with
  | some p =>
      String.mk (p.1 ++ "://".data ++ p.2.takeWhile (fun c => c != '/') ++ path.data)
  | none => path

/-- Contact pages probed by CompanyInfoExtractor.extract_company_email
(company_info_extractor.py lines 527-533): the site root, then /contact,
/contact-us, /about and /careers. -/
def pages_to_check (websiteUrl : String) : List String :=
  [websiteUrl,
   urljoin websiteUrl "/contact",
   urljoin websiteUrl "/contact-us",
   urljoin websiteUrl "/about",
   urljoin websiteUrl "/careers"]

/-- Modelled from the spec: the probe list the specification describes for
email discovery, which additionally ends with the /jobs page. -/
def pages_claimed (websiteUrl : String) : List String :=
  [websiteUrl,
   urljoin websiteUrl "/contact",
   urljoin websiteUrl "/contact-us",
   urljoin websiteUrl "/about",
   urljoin websiteUrl "/careers",
   urljoin websiteUrl "/jobs"]

/-- CompanyInfoExtractor._is_company_email (lines 599-625): reject
bulk-mail local parts and personal-mail domains, prefer the standard
contact local parts, otherwise accept anything containing both an at sign
and a dot. -/
def is_company_email (email : String) : Bool :=
  let e := strToLower email
  let excludedPatterns := ["noreply@", "no-reply@", "donotreply@",
    "newsletter@", "marketing@",
    "gmail.com", "yahoo.com", "hotmail.com", "outlook.com"]
  if excludedPatterns.any (fun pat => strContains e pat) then false
  else
    let preferredPatterns := ["info@", "contact@", "hello@", "careers@", "jobs@", "hr@"]
    if preferredPatterns.any (fun pat => strContains e pat) then true
    else e.data.contains '@' && e.data.contains '.'

/-- CompanyInfoExtractor.extract_company_email (lines 514-554): a falsy
website URL yields nothing; otherwise the probe pages are visited in order
and the first accepted address wins.  `fetchEmail` stands for
_extract_email_from_page, the per-page HTTP fetch, text extraction and
regex scan, which returns the first accepted address of a page or nothing
(all of its failures are caught and degrade to nothing). -/
def extract_company_email (fetchEmail : String → Option String) (websiteUrl : String) :
    Option String :=
  if websiteUrl.isEmpty then none
  else (pages_to_check websiteUrl).findSome? fetchEmail

/-- Snapshot of a live browser session as seen by the challenge detector:
reading the page source or the current URL may itself raise (the session
may have died), and each find_elements probe may raise or report whether
any node matched. -/
structure Driver where
  page_source : Except String String
  current_url : Except String String
  find_elements : String → Except String Bool

/-- Page-source phrases of cloudflare_bypass.py lines 115-129. -/
def cf_indicators : List String :=
  ["cloudflare", "cf-challenge", "checking your browser", "please wait",
   "ddos protection", "challenge-form", "turnstile", "cf-ray",
   "just a moment", "security check", "verify you are human",
   "cf-browser-verification", "challenge-platform"]

/-- URL fragments of cloudflare_bypass.py lines 138-143. -/
def cf_url_patterns : List String :=
  ["challenge", "cdn-cgi", "cf-under-attack", "cloudflare"]

/-- Structural selectors of cloudflare_bypass.py lines 151-160. -/
def cf_elements : List String :=
  ["//div[@id=\x27challenge-form\x27]",
   "//div[contains(@class, \x27cf-challenge\x27)]",
   "//div[contains(@class, \x27cf-wrapper\x27)]",
   "//*[contains(text(), \x27Checking your browser\x27)]",
   "//*[contains(text(), \x27DDoS protection\x27)]",
   "//*[contains(text(), \x27Cloudflare\x27)]",
   "//iframe[contains(@src, \x27challenges.cloudflare.com\x27)]",
   "//div[@class=\x27cf-browser-verification\x27]"]

/-- Try body of CloudflareBypass.is_cloudflare_challenge (lines 110-170):
scan the lowered page source for the indicator phrases, the lowered URL
for the URL fragments, then run the element probes, whose individual
failures are swallowed by the inner except and treated as no match. -/
def cfCheckBody (d : Driver) : Except String Bool := do
  let src ← d.page_source
  let pageSource := strToLower src
  if cf_indicators.any (fun ind => strContains pageSource ind) then
    return true
  else
    let url ← d.current_url
    let currentUrl := strToLower url
    if cf_url_patterns.any (fun pat => strContains currentUrl pat) then
      return true
    else if cf_elements.any (fun sel =>
        match d.find_elements sel with
        | .ok b => b
        | .error _ => false) then
      return true
    else
      return false

/-- CloudflareBypass.is_cloudflare_challenge (lines 101-174): no driver at
all reports no challenge; otherwise the try body runs, and if it raises,
the except handler at lines 172-174 reports a challenge (fail-safe). -/
def is_cloudflare_challenge (checkDriver : Option Driver) : Bool :=
  match checkDriver with
  | none => false
  | some d =>
      match cfCheckBody d with
      | .ok b => b
      | .error _ => true

/-! ## Theorems -/

/-- C6: every update of a TaskProgress record through update_progress
stores the completion percentage clamped into [0, 100]; in particular
updating with -5 stores 0 and updating with 150 stores 100. -/
theorem C6_progress_percentage_clamped :
    (∀ (p : TaskProgressRec) (step : Option String) (kw : ProgressKwargs) (x : Int),
      (p.update_progress step (some x) kw).progress_percentage = min 100 (max 0 x) ∧
      0 ≤ (p.update_progress step (some x) kw).progress_percentage ∧
      (p.update_progress step (some x) kw).progress_percentage ≤ 100) ∧
    (∀ (p : TaskProgressRec),
      (p.update_progress none (some (-5)) {}).progress_percentage = 0 ∧
      (p.update_progress none (some 150) {}).progress_percentage = 100) := by
  have hmain : ∀ (p : TaskProgressRec) (step : Option String) (kw : ProgressKwargs) (x : Int),
      (p.update_progress step (some x) kw).progress_percentage = min 100 (max 0 x) := by
    intro p step kw x
    obtain ⟨a, b, c, d⟩ := kw
    unfold TaskProgressRec.update_progress
    cases step with
    | none => cases a <;> cases b <;> cases c <;> cases d <;> simp
    | some s =>
        by_cases hs : s.isEmpty <;>
          cases a <;> cases b <;> cases c <;> cases d <;> simp [hs]
  refine ⟨fun p step kw x => ⟨hmain p step kw x, ?_, ?_⟩, fun p => ⟨?_, ?_⟩⟩
  · rw [hmain]; omega
  · rw [hmain]; omega
  · rw [hmain]; rfl
  · rw [hmain]; rfl

/-- C8: when the challenge-detection body itself raises while a driver
session is being checked, is_cloudflare_challenge reports a challenge
(true), never silently no-challenge; in particular a raising page_source
read yields true. -/
theorem C8_challenge_detection_fail_safe (d : Driver) :
    (∀ e, cfCheckBody d = .error e → is_cloudflare_challenge (some d) = true) ∧
    (∀ e, d.page_source = .error e → is_cloudflare_challenge (some d) = true) := by
  constructor
  · intro e he
    simp [is_cloudflare_challenge, he]
  · intro e he
    simp only [is_cloudflare_challenge, cfCheckBody, he]
    rfl

/-- Driver whose session has died: every probe raises. -/
def crashedDriver : Driver :=
  { page_source := .error "WebDriverException: session deleted",
    current_url := .error "WebDriverException: session deleted",
    find_elements := fun _ => .error "WebDriverException: session deleted" }

/-- Witness for C8 at a concrete crashed driver. -/
theorem C8_challenge_detection_fail_safe_witness :
    is_cloudflare_challenge (some crashedDriver) = true :=
  (C8_challenge_detection_fail_safe crashedDriver).2
    "WebDriverException: session deleted" rfl

/-- C10: load_jobs never raises; a missing store file, a parser failure on
the file content, and an unsupported extension all yield the empty list. -/
theorem C10_load_jobs_never_raises :
    ∀ (path : String) (content : Option String)
      (parseJSON parseCSV : String → Except String (List Posting)),
      (content = none → load_jobs path content parseJSON parseCSV = []) ∧
      (∀ c e, content = some c → strEndsWith path ".json" = true → parseJSON c = .error e →
        load_jobs path content parseJSON parseCSV = []) ∧
      (∀ c e, content = some c → strEndsWith path ".json" = false →
        strEndsWith path ".csv" = true →
        parseCSV c = .error e → load_jobs path content parseJSON parseCSV = []) ∧
      (∀ c, content = some c → strEndsWith path ".json" = false →
        strEndsWith path ".csv" = false →
        load_jobs path content parseJSON parseCSV = []) := by
  intro path content parseJSON parseCSV
  refine ⟨?_, ?_, ?_, ?_⟩
  · intro h; subst h; rfl
  · intro c e hc hj hp; subst hc
    simp [load_jobs, loadJobsBody, hj, hp]
  · intro c e hc hj hcsv hp; subst hc
    simp [load_jobs, loadJobsBody, hj, hcsv, hp]
  · intro c hc hj hcsv; subst hc
    simp [load_jobs, loadJobsBody, hj, hcsv]

/-- Witness for C10: a missing file, an unparseable .json file, and an
unsupported .dat extension all load as the empty list. -/
theorem C10_load_jobs_never_raises_witness :
    load_jobs "data/scraped_jobs.json" none (fun _ => .ok []) (fun _ => .ok []) = [] ∧
    load_jobs "data/scraped_jobs.json" (some "not json")
      (fun _ => .error "JSONDecodeError") (fun _ => .ok []) = [] ∧
    load_jobs "data/scraped_jobs.dat" (some "junk")
      (fun _ => .ok []) (fun _ => .ok []) = [] := by
  refine ⟨?_, ?_, ?_⟩
  · exact (C10_load_jobs_never_raises "data/scraped_jobs.json" none _ _).1 rfl
  · exact (C10_load_jobs_never_raises "data/scraped_jobs.json" (some "not json") _ _).2.1
      "not json" "JSONDecodeError" rfl (by decide) rfl
  · exact (C10_load_jobs_never_raises "data/scraped_jobs.dat" (some "junk") _ _).2.2.2
      "junk" rfl (by decide) (by decide)

/-- First-hit decomposition of List.findSome?: a some result splits the
list into an all-none prescan, the hit, and a tail. -/
theorem findSome?_eq_some_split {α β : Type} (f : α → Option β) (l : List α) (e : β)
    (h : l.findSome? f = some e) :
    ∃ pre post p, l = pre ++ p :: post ∧ f p = some e ∧ ∀ q ∈ pre, f q = none := by
  induction l with
  | nil => simp [List.findSome?] at h
  | cons a t ih =>
      rw [List.findSome?] at h
      cases ha : f a with
      | some b =>
          rw [ha] at h
          refine ⟨[], t, a, by simp, ?_, by simp⟩
          simpa [ha] using h
      | none =>
          rw [ha] at h
          obtain ⟨pre, post, p, hl, hp, hpre⟩ := ih h
          refine ⟨a :: pre, post, p, by simp [hl], hp, ?_⟩
          intro q hq
          rcases List.mem_cons.mp hq with hq | hq
          · rw [hq]; exact ha
          · exact hpre q hq

/-- C7 counterexample: the email probe list of extract_company_email
stops at /careers and never probes a /jobs page, so an address reachable
only at /jobs is not found, and the probe list differs from the one the
claim describes. -/
theorem C7_counterexample :
    extract_company_email
      (fun p => if p == "https://acme.com/jobs" then some "hr@acme.com" else none)
      "https://acme.com" = none ∧
    pages_to_check "https://acme.com" ≠ pages_claimed "https://acme.com" := by
  constructor
  · decide
  · decide

/-- C7 amended: given a resolved, non-empty company website, email
discovery probes exactly these pages in this order: the site root,
/contact, /contact-us, /about, /careers (no /jobs page), returning the
first accepted address found and no value when no page yields one. -/
theorem C7_email_probe_order (fetchEmail : String → Option String) (w : String)
    (hw : w ≠ "") :
    pages_to_check w = [w, urljoin w "/contact", urljoin w "/contact-us",
      urljoin w "/about", urljoin w "/careers"] ∧
    (extract_company_email fetchEmail w = none ↔
      ∀ p ∈ pages_to_check w, fetchEmail p = none) ∧
    (∀ e, extract_company_email fetchEmail w = some e →
      ∃ pre post p, pages_to_check w = pre ++ p :: post ∧ fetchEmail p = some e ∧
        ∀ q ∈ pre, fetchEmail q = none) := by
  have hempty : w.isEmpty = false := by
    cases h : w.isEmpty
    · rfl
    · exact absurd ((String.isEmpty_iff w).mp h) hw
  refine ⟨rfl, ?_, ?_⟩
  · rw [extract_company_email, hempty]
    simp only [Bool.false_eq_true, if_false]
    exact List.findSome?_eq_none_iff
  · intro e he
    rw [extract_company_email, hempty] at he
    exact findSome?_eq_some_split fetchEmail (pages_to_check w) e (by simpa using he)

/-- Witness for C7 at a concrete website with no reachable email. -/
theorem C7_email_probe_order_witness :
    extract_company_email (fun _ => none) "https://acme.com" = none :=
  (C7_email_probe_order (fun _ => none) "https://acme.com" (by decide)).2.1.mpr
    (fun _ _ => rfl)

/-- C5 counterexample: ScraperStats.success_rate divides successful
requests by requests made; a row with one successful request and zero
jobs saved reports 100, while the claimed formula jobs_saved /
jobs_requested * 100 yields 0 whenever no jobs were saved (requested
count 10 or 0 alike). -/
theorem C5_counterexample :
    ScraperStats.success_rate ⟨"indeed", 0, 1, 1, 0, 0, 0, 0, 0, 0⟩ = 100 ∧
    success_rate_claimed 0 10 = 0 ∧ success_rate_claimed 0 0 = 0 := by
  refine ⟨?_, ?_, ?_⟩
  · norm_num [ScraperStats.success_rate, pythonRound2]
  · norm_num [success_rate_claimed]
  · norm_num [success_rate_claimed]

/-- C5 amended: the per-source per-day ScraperStats record computes
success_rate as successful_requests divided by requests_made times 100
(rounded to two decimals), returning 0 when no requests were made; the
rate is independent of the job counters, and the model declares no
jobs_requested attribute, so the read of stats.jobs_requested in
run_scraper_url_task raises AttributeError. -/
theorem C5_success_rate_requests_based :
    (∀ s : ScraperStats, s.requests_made = 0 → s.success_rate = 0) ∧
    (∀ s : ScraperStats, 0 < s.requests_made → s.successful_requests = s.requests_made →
      s.success_rate = 100) ∧
    (∀ (s : ScraperStats) (jf js : Nat),
      ScraperStats.success_rate { s with jobs_found := jf, jobs_saved := js } =
        s.success_rate) ∧
    (∀ s : ScraperStats, s.getNatAttr "jobs_requested" =
      .error "AttributeError: ScraperStats object has no attribute jobs_requested") := by
  refine ⟨?_, ?_, ?_, ?_⟩
  · intro s h
    simp [ScraperStats.success_rate, h]
  · intro s h hsr
    rw [ScraperStats.success_rate, if_neg (by omega)]
    rw [hsr]
    have hne : (s.requests_made : ℚ) ≠ 0 := by
      exact_mod_cast Nat.pos_iff_ne_zero.mp h
    rw [div_self hne, one_mul]
    norm_num [pythonRound2]
  · intro s jf js
    rfl
  · intro s
    rfl

/-- Witness for C5 at concrete rows: no requests gives 0, all requests
successful gives 100. -/
theorem C5_success_rate_requests_based_witness :
    ScraperStats.success_rate ⟨"indeed", 0, 0, 0, 0, 7, 3, 0, 0, 0⟩ = 0 ∧
    ScraperStats.success_rate ⟨"glassdoor", 0, 4, 4, 0, 0, 0, 0, 0, 0⟩ = 100 :=
  ⟨C5_success_rate_requests_based.1 _ rfl,
   C5_success_rate_requests_based.2.1 _ (by norm_num) rfl⟩

/-- Inserting into a descending-sorted run list grows it by one. -/
theorem insertDesc_length (x : RunRow) (l : List RunRow) :
    (insertDesc x l).length = l.length + 1 := by
  induction l with
  | nil => rfl
  | cons y ys ih => by_cases h : y.started_at ≤ x.started_at <;> simp [insertDesc, h, ih]

/-- Sorting runs by descending start time preserves length. -/
theorem sortByStartedDesc_length (l : List RunRow) :
    (sortByStartedDesc l).length = l.length := by
  induction l with
  | nil => rfl
  | cons x t ih =>
      show (insertDesc x (sortByStartedDesc t)).length = t.length + 1
      rw [insertDesc_length, ih]

/-- A per-job cleanup step with at most 100 runs deletes nothing. -/
theorem cleanupJobStep_le (runs : List RunRow) (d : Nat) (j : Nat)
    (h : (runs.filter (fun r => r.scheduled_job == some j)).length ≤ 100) :
    cleanupJobStep (runs, d) j = .ok (runs, d) := by
  unfold cleanupJobStep
  have hnil :
      (sortByStartedDesc (runs.filter (fun r => r.scheduled_job == some j))).drop 100 = [] := by
    apply List.drop_eq_nil_of_le
    rw [sortByStartedDesc_length]
    exact h
  simp [hnil]

/-- A per-job cleanup step with more than 100 runs raises TypeError from
delete() on the sliced queryset. -/
theorem cleanupJobStep_gt (runs : List RunRow) (d : Nat) (j : Nat)
    (h : 100 < (runs.filter (fun r => r.scheduled_job == some j)).length) :
    cleanupJobStep (runs, d) j =
      .error "TypeError: Cannot use limit or offset with delete()." := by
  unfold cleanupJobStep
  have hne :
      (sortByStartedDesc (runs.filter (fun r => r.scheduled_job == some j))).drop 100 ≠ [] := by
    intro hc
    have hlen := congrArg List.length hc
    rw [List.length_drop, sortByStartedDesc_length] at hlen
    simp at hlen
    omega
  simp [RunQuerySet.delete, hne]

/-- The scheduled-job loop of cleanup_old_job_runs either raises on the
first job with more than 100 runs or leaves the table untouched with a
zero count. -/
theorem cleanupLoop_characterization (jids : List Nat) (runs : List RunRow) :
    cleanupLoop jids (runs, 0) =
      if jids.any (fun j =>
          decide (100 < (runs.filter (fun r => r.scheduled_job == some j)).length)) then
        .error "TypeError: Cannot use limit or offset with delete()."
      else .ok (runs, 0) := by
  induction jids with
  | nil => rfl
  | cons j t ih =>
      show (match cleanupJobStep (runs, 0) j with
            | .ok acc2 => cleanupLoop t acc2
            | .error e => .error e) = _
      by_cases h : 100 < (runs.filter (fun r => r.scheduled_job == some j)).length
      · rw [cleanupJobStep_gt runs 0 j h]
        simp [h]
      · rw [cleanupJobStep_le runs 0 j (by omega)]
        show cleanupLoop t (runs, 0) = _
        rw [ih]
        have hd : decide
            (100 < (runs.filter (fun r => r.scheduled_job == some j)).length) = false := by
          simp [h]
        simp only [List.any_cons, hd, Bool.false_or]

set_option maxRecDepth 10000 in
/-- C4: cleanup_old_job_runs never prunes anything: every delete is
invoked on a sliced queryset, so whenever some scheduled job has more
than 100 runs, or more than 50 unattached manual runs exist, the task
raises TypeError and the table is untouched; otherwise it deletes nothing
and returns 0.  In particular a scheduled job with 150 runs keeps all
150. -/
theorem C4_cleanup_never_prunes :
    (∀ (scheduledJobIds : List Nat) (dbRuns : List RunRow),
      cleanup_old_job_runs scheduledJobIds dbRuns =
        if scheduledJobIds.any (fun j =>
            decide (100 < (dbRuns.filter (fun r => r.scheduled_job == some j)).length)) ||
            decide (50 < (dbRuns.filter (fun r => r.scheduled_job == none)).length) then
          .error "TypeError: Cannot use limit or offset with delete()."
        else .ok (dbRuns, 0)) ∧
    cleanup_old_job_runs [0] ((List.range 150).map (fun i => ⟨i, some 0, i⟩)) =
      .error "TypeError: Cannot use limit or offset with delete()." := by
  have hmain : ∀ (jids : List Nat) (runs : List RunRow),
      cleanup_old_job_runs jids runs =
        if jids.any (fun j =>
            decide (100 < (runs.filter (fun r => r.scheduled_job == some j)).length)) ||
            decide (50 < (runs.filter (fun r => r.scheduled_job == none)).length) then
          .error "TypeError: Cannot use limit or offset with delete()."
        else .ok (runs, 0) := by
    intro jids runs
    unfold cleanup_old_job_runs
    rw [cleanupLoop_characterization]
    by_cases h1 : jids.any (fun j =>
        decide (100 < (runs.filter (fun r => r.scheduled_job == some j)).length)) = true
    · rw [if_pos h1]
      simp [h1]
    · rw [if_neg h1]
      simp only [Bool.not_eq_true] at h1
      rw [h1, Bool.false_or]
      by_cases h2 : 50 < (runs.filter (fun r => r.scheduled_job == none)).length
      · have hne :
            (sortByStartedDesc (runs.filter (fun r => r.scheduled_job == none))).drop 50 ≠ [] := by
          intro hc
          have hlen := congrArg List.length hc
          rw [List.length_drop, sortByStartedDesc_length] at hlen
          simp at hlen
          omega
        simp [RunQuerySet.delete, hne, h2]
      · have hnil :
            (sortByStartedDesc (runs.filter (fun r => r.scheduled_job == none))).drop 50 = [] := by
          apply List.drop_eq_nil_of_le
          rw [sortByStartedDesc_length]
          omega
        simp [hnil, h2]
  refine ⟨hmain, ?_⟩
  rw [hmain]
  rw [if_pos]
  decide

/-- C3: calling get-or-create company twice with the same name and two
different non-empty website values leaves exactly one Company row for
that name, whose website equals the first value; and the backfill step
never replaces a populated website or email, filling them only when
currently empty. -/
theorem C3_company_get_or_create_idempotent :
    (∀ (db : DB) (name w1 w2 : String) (e1 e2 : Option Value),
      w1 ≠ "" →
      List.find? (fun c => c.name == name) db.companies = none →
      ((saveCompanyStep (saveCompanyStep db name (some (.str w1)) e1)
          name (some (.str w2)) e2).companies.filter
            (fun c => c.name == name)).length = 1 ∧
      ∀ c ∈ (saveCompanyStep (saveCompanyStep db name (some (.str w1)) e1)
          name (some (.str w2)) e2).companies,
        c.name = name → c.company_website = some w1) ∧
    (∀ (c : CompanyRow) (jdW jdE : Option Value),
      optTruthy c.company_website = true →
      (backfillCompany c jdW jdE).company_website = c.company_website) ∧
    (∀ (c : CompanyRow) (jdW jdE : Option Value),
      optTruthy c.company_email = true →
      (backfillCompany c jdW jdE).company_email = c.company_email) ∧
    (∀ (c : CompanyRow) (s : String) (jdE : Option Value),
      optTruthy c.company_website = false → s ≠ "" →
      (backfillCompany c (some (.str s)) jdE).company_website = some s) := by
  have hbackW : ∀ (c : CompanyRow) (jdW jdE : Option Value),
      optTruthy c.company_website = true →
      (backfillCompany c jdW jdE).company_website = c.company_website := by
    intro c jdW jdE h
    simp [backfillCompany, h]
  have hbackE : ∀ (c : CompanyRow) (jdW jdE : Option Value),
      optTruthy c.company_email = true →
      (backfillCompany c jdW jdE).company_email = c.company_email := by
    intro c jdW jdE h
    simp [backfillCompany, h]
  have hfill : ∀ (c : CompanyRow) (s : String) (jdE : Option Value),
      optTruthy c.company_website = false → s ≠ "" →
      (backfillCompany c (some (.str s)) jdE).company_website = some s := by
    intro c s jdE h hs
    have hs2 : s.isEmpty = false := by
      cases hh : s.isEmpty
      · rfl
      · exact absurd ((String.isEmpty_iff s).mp hh) hs
    simp [backfillCompany, h, Posting.truthy, Value.truthyV, hs2]
  refine ⟨?_, hbackW, hbackE, hfill⟩
  intro db name w1 w2 e1 e2 hw1 hnone
  obtain ⟨dbc, dbj⟩ := db
  have hw1e : w1.isEmpty = false := by
    cases hh : w1.isEmpty
    · rfl
    · exact absurd ((String.isEmpty_iff w1).mp hh) hw1
  have hnone' : List.find? (fun c => c.name == name) dbc = none := hnone
  have hothers : ∀ c ∈ dbc, (c.name == name) = false := by
    intro c hc
    simpa using List.find?_eq_none.mp hnone' c hc
  have hstep1 : ∃ em, saveCompanyStep ⟨dbc, dbj⟩ name (some (.str w1)) e1 =
      ⟨dbc ++ [⟨name, some w1, em⟩], dbj⟩ := by
    refine ⟨(match e1 with | some (.str s) => some s | _ => none), ?_⟩
    simp [saveCompanyStep, getOrCreateCompany, hnone']
  obtain ⟨em, hstep1⟩ := hstep1
  rw [hstep1]
  have hfind2 : List.find? (fun c => c.name == name)
      (dbc ++ [(⟨name, some w1, em⟩ : CompanyRow)]) = some ⟨name, some w1, em⟩ := by
    rw [List.find?_append, hnone']
    simp [List.find?]
  have hstep2 : saveCompanyStep ⟨dbc ++ [⟨name, some w1, em⟩], dbj⟩
      name (some (.str w2)) e2 =
      ⟨dbc ++ [backfillCompany ⟨name, some w1, em⟩ (some (.str w2)) e2], dbj⟩ := by
    simp only [saveCompanyStep, getOrCreateCompany, hfind2]
    have hmapid : dbc.map (fun c => if c.name = name
        then backfillCompany c (some (.str w2)) e2 else c) = dbc := by
      rw [List.map_congr_left (g := fun c => c)]
      · simp
      · intro a ha
        have hne : ¬(a.name = name) := by simpa using hothers a ha
        simp [hne]
    simp [List.map_append, hmapid]
  rw [hstep2]
  have hkeep : (backfillCompany (⟨name, some w1, em⟩ : CompanyRow)
      (some (.str w2)) e2).company_website = some w1 := by
    apply hbackW
    simp [optTruthy, hw1e]
  have hname : (backfillCompany (⟨name, some w1, em⟩ : CompanyRow)
      (some (.str w2)) e2).name = name := rfl
  constructor
  · show ((dbc ++ [backfillCompany ⟨name, some w1, em⟩ (some (.str w2)) e2]).filter
      (fun c => c.name == name)).length = 1
    rw [List.filter_append]
    have hleft : dbc.filter (fun c => c.name == name) = [] := by
      rw [List.filter_eq_nil_iff]
      intro c hc
      simp [hothers c hc]
    rw [hleft]
    simp [List.filter, hname]
  · show ∀ c ∈ dbc ++ [backfillCompany ⟨name, some w1, em⟩ (some (.str w2)) e2],
      c.name = name → c.company_website = some w1
    intro c hc hcname
    rcases List.mem_append.mp hc with hc | hc
    · exact absurd hcname (by simpa using hothers c hc)
    · have hceq : c = backfillCompany ⟨name, some w1, em⟩ (some (.str w2)) e2 := by
        simpa using hc
      rw [hceq, hkeep]

/-- Witness for C3: two saves of company Acme with different websites
leave one row carrying the first website. -/
theorem C3_company_get_or_create_idempotent_witness :
    ((saveCompanyStep (saveCompanyStep ⟨[], []⟩ "Acme" (some (.str "https://acme-first.com")) none)
        "Acme" (some (.str "https://acme-second.com")) none).companies.filter
          (fun c => c.name == "Acme")).length = 1 := by
  exact (C3_company_get_or_create_idempotent.1 ⟨[], []⟩ "Acme"
    "https://acme-first.com" "https://acme-second.com" none none (by decide) rfl).1

/-- Dictionary write, lookup side: replacing every pair at a present key
makes the lookup at that key return the new value. -/
theorem find?_map_replace_self (k : String) (v : Value) (p : Posting)
    (h : p.any (fun kv => kv.1 == k) = true) :
    (p.map (fun kv => if kv.1 == k then (k, v) else kv)).find?
      (fun kv => kv.1 == k) = some (k, v) := by
  induction p with
  | nil => simp at h
  | cons a t ih =>
      by_cases ha : (a.1 == k) = true
      · rw [List.map_cons, if_pos ha, List.find?_cons]
        have hself : (((k, v) : String × Value).1 == k) = true := beq_self_eq_true k
        rw [hself]
      · have ht : t.any (fun kv => kv.1 == k) = true := by
          rw [List.any_cons] at h
          simpa [ha] using h
        have haf : (a.1 == k) = false := by simpa using ha
        rw [List.map_cons, if_neg ha, List.find?_cons, haf]
        exact ih ht

/-- Dictionary write, frame side: replacing pairs at one key leaves the
lookup at any other key unchanged. -/
theorem find?_map_replace_other (k k2 : String) (v : Value) (p : Posting)
    (hk : (k == k2) = false) :
    (p.map (fun kv => if kv.1 == k then (k, v) else kv)).find? (fun kv => kv.1 == k2) =
      p.find? (fun kv => kv.1 == k2) := by
  induction p with
  | nil => rfl
  | cons a t ih =>
      by_cases ha : (a.1 == k) = true
      · have ha2 : (a.1 == k2) = false := by
          have heq : a.1 = k := by simpa using ha
          rw [heq]
          exact hk
        rw [List.map_cons, if_pos ha, List.find?_cons]
        have hscrut : (((k, v) : String × Value).1 == k2) = false := hk
        rw [hscrut, List.find?_cons, ha2]
        exact ih
      · by_cases hb : (a.1 == k2) = true
        · rw [List.map_cons, if_neg ha, List.find?_cons, List.find?_cons, hb]
        · have hbf : (a.1 == k2) = false := by simpa using hb
          rw [List.map_cons, if_neg ha, List.find?_cons, List.find?_cons, hbf]
          exact ih

/-- Python dict write then read at the written key. -/
theorem Posting.get_set_self (p : Posting) (k : String) (v : Value) :
    (p.set k v).get k = some v := by
  unfold Posting.set Posting.get
  by_cases h : p.any (fun kv => kv.1 == k) = true
  · rw [if_pos h, find?_map_replace_self k v p h]
    rfl
  · rw [if_neg h, List.find?_append]
    have hp : p.find? (fun kv => kv.1 == k) = none := by
      rw [List.find?_eq_none]
      intro x hx hxk
      exact h (List.any_eq_true.mpr ⟨x, hx, hxk⟩)
    rw [hp]
    simp [List.find?]

/-- Python dict write then read at a different key. -/
theorem Posting.get_set_other (p : Posting) (k k2 : String) (v : Value) (hne : k2 ≠ k) :
    (p.set k v).get k2 = p.get k2 := by
  have hk : (k == k2) = false := beq_eq_false_iff_ne.mpr (Ne.symm hne)
  unfold Posting.set Posting.get
  by_cases h : p.any (fun kv => kv.1 == k) = true
  · rw [if_pos h, find?_map_replace_other k k2 v p hk]
  · rw [if_neg h, List.find?_append]
    have hlast : List.find? (fun kv => kv.1 == k2) [(k, v)] = none := by
      simp [List.find?, hk]
    rw [hlast]
    simp

/-- C9: save_jobs overwrites every posting's scraped_at with the save
time before persistence, even when the posting already carried one, so
original scrape timestamps are not preserved; no other field of the
posting is modified, a posting with no URL duplicate in the store is
appended exactly as stamped, and the database sync receives the stamped
batch. -/
theorem C9_save_jobs_stamps_scraped_at :
    (∀ (nowIso : String) (j : Posting),
      (stampJob nowIso j).get "scraped_at" = some (.str nowIso)) ∧
    (∀ (nowIso : String) (j : Posting) (k : String), k ≠ "scraped_at" →
      (stampJob nowIso j).get k = j.get k) ∧
    (∀ (parseDT : String → Option Nat) (now : Nat) (nowIso : String)
       (existing : List Posting) (db : DB) (j : Posting),
      find_duplicate (stampJob nowIso j) existing = none →
      (save_jobs parseDT now nowIso existing db [j]).1 = existing ++ [stampJob nowIso j] ∧
      (save_jobs parseDT now nowIso existing db [j]).2 =
        save_to_django_db parseDT now db [stampJob nowIso j]) := by
  refine ⟨?_, ?_, ?_⟩
  · intro nowIso j
    exact Posting.get_set_self j "scraped_at" (.str nowIso)
  · intro nowIso j k hk
    exact Posting.get_set_other j "scraped_at" k (.str nowIso) hk
  · intro parseDT now nowIso existing db j hdup
    constructor
    · simp [save_jobs, saveJobsStep, hdup]
    · simp [save_jobs]

/-- Witness for C9: a posting that already carries a scraped_at of
2024-01-01 is restamped with the save time 2024-05-01 and appended. -/
theorem C9_save_jobs_stamps_scraped_at_witness :
    (stampJob "2024-05-01T12:00:00"
      [("title", .str "Dev"), ("scraped_at", .str "2024-01-01T00:00:00")]).get "scraped_at" =
      some (.str "2024-05-01T12:00:00") ∧
    (save_jobs (fun _ => none) 0 "2024-05-01T12:00:00" [] ⟨[], []⟩
      [[("title", .str "Dev"), ("scraped_at", .str "2024-01-01T00:00:00")]]).1 =
      [stampJob "2024-05-01T12:00:00"
        [("title", .str "Dev"), ("scraped_at", .str "2024-01-01T00:00:00")]] := by
  constructor
  · exact C9_save_jobs_stamps_scraped_at.1 _ _
  · have h := (C9_save_jobs_stamps_scraped_at.2.2 (fun _ => none) 0 "2024-05-01T12:00:00"
      [] ⟨[], []⟩ [("title", .str "Dev"), ("scraped_at", .str "2024-01-01T00:00:00")] rfl).1
    simpa using h

/-- Posting dictionary as produced by the scrapers: the standard string
fields of a scraped job. -/
def mkPosting (title company location url description salary source scraped_at : String) :
    Posting :=
  [("title", .str title), ("company", .str company), ("location", .str location),
   ("url", .str url), ("description", .str description), ("salary", .str salary),
   ("source", .str source), ("scraped_at", .str scraped_at)]

/-- Timestamp parser used by the C1 counterexample. -/
def c1_parse (s : String) : Option Nat :=
  if s == "2024-01-01T00:00:00" then some 100
  else if s == "2024-01-02T00:00:00" then some 200
  else none

/-- First saved posting of the C1 counterexample. -/
def c1_posting1 : Posting :=
  mkPosting "Engineer" "Acme" "NYC" "https://jobs.example/1" "Builds things" ""
    "indeed" "2024-01-01T00:00:00"

/-- Second saved posting of the C1 counterexample: identical title,
company, location and description, different URL, source and scraped-at. -/
def c1_posting2 : Posting :=
  mkPosting "Engineer" "Acme" "NYC" "https://jobs.example/2" "Builds things" ""
    "glassdoor" "2024-01-02T00:00:00"

/-- C1 counterexample: two postings with identical title, company,
location and description but different URL, source and scraped-at values
leave two Job rows after the two saves, not one: the upsert key of
save_to_django_db is (title, company, url), not (title, company,
location, description). -/
theorem C1_counterexample :
    ((save_to_django_db c1_parse 0
        (save_to_django_db c1_parse 0 ⟨[], []⟩ [c1_posting1])
        [c1_posting2]).jobs.filter (fun j =>
          j.title == "Engineer" && j.company == "Acme" &&
          j.location == "NYC" && j.description == "Builds things")).length = 2 := by
  decide

/-- C1 amended: the upsert identity of save_to_django_db is (title,
company, URL): saving two postings with identical title, company and URL
but different location, description, salary, source and scraped-at values
leaves exactly one Job row, whose location, description, salary, source
and scraped-at equal the second call's values; postings differing in URL
create separate rows even when title, company, location and description
coincide. -/
theorem C1_upsert_key_title_company_url
    (parseDT : String → Option Nat) (now t2 : Nat)
    (title company url loc1 loc2 desc1 desc2 sal1 sal2 src1 src2 sa1 sa2 : String)
    (htitle : title ≠ "") (hcompany : company ≠ "")
    (hsa2 : sa2 ≠ "") (hparse : parseDT sa2 = some t2) :
    (save_to_django_db parseDT now
        (save_to_django_db parseDT now ⟨[], []⟩
          [mkPosting title company loc1 url desc1 sal1 src1 sa1])
        [mkPosting title company loc2 url desc2 sal2 src2 sa2]).jobs =
      [⟨title, company, loc2, url, desc2, sal2, src2, t2⟩] := by
  have ht : title.isEmpty = false := by
    cases hh : title.isEmpty
    · rfl
    · exact absurd ((String.isEmpty_iff title).mp hh) htitle
  have hc : company.isEmpty = false := by
    cases hh : company.isEmpty
    · rfl
    · exact absurd ((String.isEmpty_iff company).mp hh) hcompany
  have hs : sa2.isEmpty = false := by
    cases hh : sa2.isEmpty
    · rfl
    · exact absurd ((String.isEmpty_iff sa2).mp hh) hsa2
  simp [save_to_django_db, saveJobRecord, mkPosting, Posting.get, Posting.getD,
        Posting.truthy, Value.truthyV, Value.pyStr, saveCompanyStep, getOrCreateCompany,
        backfillCompany, parseScrapedAt, updateOrCreateJob, optTruthy, List.find?,
        List.filter, ht, hc, hs, hparse]

/-- Witness for C1 at concrete postings sharing (title, company, URL). -/
theorem C1_upsert_key_title_company_url_witness :
    (save_to_django_db c1_parse 0
        (save_to_django_db c1_parse 0 ⟨[], []⟩
          [mkPosting "Engineer" "Acme" "NYC" "https://jobs.example/1" "Old text" ""
            "indeed" "2024-01-01T00:00:00"])
        [mkPosting "Engineer" "Acme" "Remote" "https://jobs.example/1" "New text" ""
          "glassdoor" "2024-01-02T00:00:00"]).jobs =
      [⟨"Engineer", "Acme", "Remote", "https://jobs.example/1", "New text", "",
        "glassdoor", 200⟩] := by
  exact C1_upsert_key_title_company_url c1_parse 0 200 "Engineer" "Acme"
    "https://jobs.example/1" "NYC" "Remote" "Old text" "New text" "" "" "indeed"
    "glassdoor" "2024-01-01T00:00:00" "2024-01-02T00:00:00"
    (by decide) (by decide) (by decide) (by decide)

/-- run_scraper_url_task executes stats.jobs_requested += num_jobs
(scraper/tasks.py line 75) before its try block, and the ScraperStats
model declares no jobs_requested column, so every call raises
AttributeError before any scraping happens. -/
theorem run_scraper_url_task_raises
    (scrape : String → String → Nat → Except String (List Posting))
    (enhance : Posting → Except String Posting)
    (parseDT : String → Option Nat) (now today : Nat) (scrapingTime : ℚ)
    (db : DB) (table : List ScraperStats)
    (filtered_url : String) (num_jobs : Nat) (source : Option String) :
    run_scraper_url_task scrape enhance parseDT now today scrapingTime db table
      filtered_url num_jobs source =
      .error "AttributeError: ScraperStats object has no attribute jobs_requested" := rfl

/-- C2: a URL-based scrape submitted through scrape_jobs_task is never
finalized as the claim describes.  The task raises ImportError resolving
run_scraper_task, which scraper.tasks does not define, before creating
any TaskProgress or ScrapeJobRun row, so no run record exists at all;
and even under the counterfactual that the import resolved, the
url_based branch finalizes the run as failed with the default empty
result_summary (no source_results key), because run_scraper_url_task
raises AttributeError on the missing ScraperStats.jobs_requested column
and the summary literal then reads the unbound local sources, raising
NameError. -/
theorem C2_url_based_run_never_finalized
    (scrape : String → String → Nat → Except String (List Posting))
    (enhance : Posting → Except String Posting)
    (runLegacy : String → String → String → Nat → DB → Except String DB)
    (parseDT : String → Option Nat) (now today : Nat) (scrapingTime : ℚ)
    (db : DB) (table : List ScraperStats)
    (task_id : String) (criteria : SearchCriteria) (sjid : Option Nat) :
    (scrape_jobs_task scrape enhance runLegacy parseDT now today scrapingTime db table
        task_id criteria sjid).progress = none ∧
    (scrape_jobs_task scrape enhance runLegacy parseDT now today scrapingTime db table
        task_id criteria sjid).job_run = none ∧
    (scrape_jobs_task scrape enhance runLegacy parseDT now today scrapingTime db table
        task_id criteria sjid).result =
      .error "ImportError: cannot import name run_scraper_task from scraper.tasks" ∧
    (criteria.scrape_type = "url_based" →
      (scrapeJobsTaskBody scrape enhance runLegacy parseDT now today scrapingTime db table
          task_id criteria sjid).job_run =
        some { scheduled_job := sjid, celery_task_id := task_id, status := "failed",
               jobs_found := 0, companies_found := 0,
               errors := ["NameError: name sources is not defined"],
               result_summary := none, completed := true } ∧
      (scrapeJobsTaskBody scrape enhance runLegacy parseDT now today scrapingTime db table
          task_id criteria sjid).result =
        .error "NameError: name sources is not defined") := by
  refine ⟨rfl, rfl, rfl, ?_⟩
  intro h
  have hbe : (criteria.scrape_type == "url_based") = true := by
    simp [h]
  constructor
  · simp [scrapeJobsTaskBody, hbe, run_scraper_url_task_raises, finalizeTask]
  · simp [scrapeJobsTaskBody, hbe, run_scraper_url_task_raises, finalizeTask]

/-- Witness for C2: a concrete url_based submission with an Indeed search
URL and max_jobs 10 leaves no run row through the task entry point, and
the counterfactual body finalizes the run as failed with an empty
result_summary. -/
theorem C2_url_based_run_never_finalized_witness :
    (scrape_jobs_task (fun _ _ _ => .ok []) (fun j => .ok j) (fun _ _ _ _ d => .ok d)
        (fun _ => none) 0 0 0 ⟨[], []⟩ [] "task-1"
        ⟨"url_based", "https://www.indeed.com/jobs?q=python", 10, "indeed", "", "",
          ["indeed"]⟩ none).job_run = none ∧
    (scrapeJobsTaskBody (fun _ _ _ => .ok []) (fun j => .ok j) (fun _ _ _ _ d => .ok d)
        (fun _ => none) 0 0 0 ⟨[], []⟩ [] "task-1"
        ⟨"url_based", "https://www.indeed.com/jobs?q=python", 10, "indeed", "", "",
          ["indeed"]⟩ none).job_run =
      some { scheduled_job := none, celery_task_id := "task-1", status := "failed",
             jobs_found := 0, companies_found := 0,
             errors := ["NameError: name sources is not defined"],
             result_summary := none, completed := true } := by
  constructor
  · exact (C2_url_based_run_never_finalized (fun _ _ _ => .ok []) (fun j => .ok j)
      (fun _ _ _ _ d => .ok d) (fun _ => none) 0 0 0 ⟨[], []⟩ [] "task-1"
      ⟨"url_based", "https://www.indeed.com/jobs?q=python", 10, "indeed", "", "",
        ["indeed"]⟩ none).2.1
  · exact ((C2_url_based_run_never_finalized (fun _ _ _ => .ok []) (fun j => .ok j)
      (fun _ _ _ _ d => .ok d) (fun _ => none) 0 0 0 ⟨[], []⟩ [] "task-1"
      ⟨"url_based", "https://www.indeed.com/jobs?q=python", 10, "indeed", "", "",
        ["indeed"]⟩ none).2.2.2 rfl).1

end SimpExtrac
